import Mathlib

/-!
Shallow embedding of the email-tracker server (src/server.py): a Flask
application over a SQLite store with four tables (emails, opens, links,
clicks).  Tables are embedded as lists of rows; the AUTOINCREMENT primary
keys of opens/clicks as counters carried in the store; TEXT PRIMARY KEY
constraints of emails/links as an explicit duplicate check on insert
(sqlite raises IntegrityError, surfacing as a 500, when violated).
Timestamps (CURRENT_TIMESTAMP) and the client ip / user-agent are passed
to each handler as parameters; the uuid4 randomness is passed as a
128-bit natural number.
-/

/-- Value of one base64 alphabet character, as in Python's base64.b64decode. -/
def b64Val (c : Char) : Nat :=
  if 'A' ≤ c ∧ c ≤ 'Z' then c.toNat - 65
  else if 'a' ≤ c ∧ c ≤ 'z' then c.toNat - 97 + 26
  else if '0' ≤ c ∧ c ≤ '9' then c.toNat - 48 + 52
  else if c = '+' then 62
  else if c = '/' then 63
  else 0

/-- Decode groups of four base64 characters into groups of three bytes. -/
def b64Go : List Char → List Nat
  | a :: b :: c :: d :: rest =>
      [b64Val a * 4 + b64Val b / 16,
       (b64Val b % 16) * 16 + b64Val c / 4,
       (b64Val c % 4) * 64 + b64Val d] ++ b64Go rest
  | [a, b, c] => [b64Val a * 4 + b64Val b / 16, (b64Val b % 16) * 16 + b64Val c / 4]
  | [a, b] => [b64Val a * 4 + b64Val b / 16]
  | _ => []

/-- Decode a base64 string to its list of bytes (padding characters dropped). -/
def b64Decode (s : String) : List Nat :=
  b64Go (s.data.filter (fun c => !(c == '=')))

/-- The fixed 1x1 transparent GIF served by the pixel endpoint. -/
def PIXEL : List Nat :=
  b64Decode "R0lGODlhAQABAIAAAAAAAP///yH5BAEAAAAALAAAAAABAAEAAAIBRAA7"

/-- Row of the emails table. -/
structure EmailRow where
  id : String
  recipient : String
  subject : String
  created_at : Nat
deriving Repr, DecidableEq

/-- Row of the opens table. -/
structure OpenRow where
  id : Nat
  email_id : String
  opened_at : Nat
  ip_address : String
  user_agent : String
  method : String
deriving Repr, DecidableEq

/-- Row of the links table. -/
structure LinkRow where
  id : String
  email_id : String
  original_url : String
  label : String
  created_at : Nat
deriving Repr, DecidableEq

/-- Row of the clicks table. -/
structure ClickRow where
  id : Nat
  link_id : String
  email_id : String
  clicked_at : Nat
  ip_address : String
  user_agent : String
deriving Repr, DecidableEq

/-- The whole sqlite database.  nextOpenId / nextClickId model the
AUTOINCREMENT sequence of the opens / clicks integer primary keys. -/
structure Store where
  emails : List EmailRow
  opens : List OpenRow
  links : List LinkRow
  clicks : List ClickRow
  nextOpenId : Nat
  nextClickId : Nat
deriving Repr, DecidableEq

/-- The store right after init_db on a fresh file: four empty tables. -/
def initStore : Store :=
  { emails := [], opens := [], links := [], clicks := [],
    nextOpenId := 1, nextClickId := 1 }

/-- Lowercase hex digit of a value below 16, as Python's hex formatting. -/
def hexDigit (n : Nat) : Char :=
  if n < 10 then Char.ofNat (48 + n) else Char.ofNat (87 + n)

/-- Little-endian list of k lowercase hex digits of n. -/
def hexDigitsRev : Nat → Nat → List Char
  | 0, _ => []
  | k + 1, n => hexDigit (n % 16) :: hexDigitsRev k (n / 16)

/-- The 32 hex characters of uuid.uuid4().hex, for a 128-bit random value r
(zero-padded, lowercase, most significant digit first). -/
def uuidHexChars (r : Nat) : List Char :=
  (hexDigitsRev 32 r).reverse

/-- Email id generation: uuid.uuid4().hex[:12] (line 149 of server.py). -/
def genEmailId (r : Nat) : String :=
  String.mk ((uuidHexChars r).take 12)

/-- Link id generation: uuid.uuid4().hex[:10] (line 180 of server.py). -/
def genLinkId (r : Nat) : String :=
  String.mk ((uuidHexChars r).take 10)

/-- SELECT * FROM emails WHERE id = ? ... fetchone(). -/
def findEmail (s : Store) (eid : String) : Option EmailRow :=
  s.emails.find? (fun e => e.id == eid)

/-- SELECT * FROM links WHERE id = ? ... fetchone(). -/
def findLink (s : Store) (lid : String) : Option LinkRow :=
  s.links.find? (fun l => l.id == lid)

/-- Python str.rstrip with one character: drop every trailing slash. -/
def rstripSlash (s : String) : String :=
  String.mk ((s.data.reverse.dropWhile (fun c => c == '/')).reverse)

/-- Headers attached to the pixel response by track_open. -/
def noCacheHeaders : List (String × String) :=
  [("Cache-Control", "no-store, no-cache, must-revalidate, max-age=0"),
   ("Pragma", "no-cache"),
   ("Expires", "0")]

/-- Response of the pixel endpoint. -/
structure PixelResp where
  status : Nat
  mimetype : String
  body : List Nat
  headers : List (String × String)
deriving Repr, DecidableEq

/-- The one response track_open ever produces: 200, image/gif, the fixed
1x1 GIF bytes, and the anti-caching headers. -/
def pixelResponse : PixelResp :=
  { status := 200, mimetype := "image/gif", body := PIXEL, headers := noCacheHeaders }

/-- GET /p/[email_id].gif (track_open, lines 87-108): record an Open with
method "pixel" when the email exists, and always serve the pixel. -/
def trackOpen (s : Store) (email_id ip ua : String) (now : Nat) : Store × PixelResp :=
  match findEmail s email_id with
  | some _ =>
      ({ s with
          opens := s.opens ++
            [{ id := s.nextOpenId, email_id := email_id, opened_at := now,
               ip_address := ip, user_agent := ua, method := "pixel" }],
          nextOpenId := s.nextOpenId + 1 },
       pixelResponse)
  | none => (s, pixelResponse)

/-- Response of the link-tracking endpoint: abort(404) or a redirect. -/
inductive ClickResp where
  | err (status : Nat)
  | redirect (status : Nat) (location : String)
deriving Repr, DecidableEq

/-- GET /l/[link_id] (track_click, lines 112-136): 404 when the link is
unknown; otherwise insert one Click and one Open (method "link", both
carrying the link's owning email id) and redirect to original_url. -/
def trackClick (s : Store) (link_id ip ua : String) (now : Nat) : Store × ClickResp :=
  match findLink s link_id with
  | none => (s, ClickResp.err 404)
  | some link =>
      ({ s with
          clicks := s.clicks ++
            [{ id := s.nextClickId, link_id := link_id, email_id := link.email_id,
               clicked_at := now, ip_address := ip, user_agent := ua }],
          opens := s.opens ++
            [{ id := s.nextOpenId, email_id := link.email_id, opened_at := now,
               ip_address := ip, user_agent := ua, method := "link" }],
          nextClickId := s.nextClickId + 1,
          nextOpenId := s.nextOpenId + 1 },
       ClickResp.redirect 302 link.original_url)

/-- Response of POST /api/track. -/
inductive CreateEmailResp where
  | badRequest (status : Nat) (msg : String)
  | serverError (status : Nat)
  | ok (email_id pixel_url img_tag : String)
deriving Repr, DecidableEq

/-- POST /api/track (create_tracked_email, lines 140-166).  Missing JSON
fields default to ""; Python falsiness rejects empty strings.  The id is
uuid.uuid4().hex[:12] of the random value r.  Inserting a duplicate id
violates the emails PRIMARY KEY (IntegrityError, an uncaught 500). -/
def createTrackedEmail (s : Store) (recipient subject : String) (r now : Nat)
    (hostUrl : String) : Store × CreateEmailResp :=
  if recipient = "" ∨ subject = "" then
    (s, CreateEmailResp.badRequest 400 "recipient and subject are required")
  else
    let email_id := genEmailId r
    if s.emails.any (fun e => e.id == email_id) then
      (s, CreateEmailResp.serverError 500)
    else
      let base_url := rstripSlash hostUrl
      let pixel_url := base_url ++ "/p/" ++ email_id ++ ".gif"
      let img_tag := "<img src=\"" ++ pixel_url ++
        "\" width=\"1\" height=\"1\" style=\"display:none\" alt=\"\" />"
      ({ s with
          emails := s.emails ++
            [{ id := email_id, recipient := recipient, subject := subject,
               created_at := now }] },
       CreateEmailResp.ok email_id pixel_url img_tag)

/-- Response of POST /api/link. -/
inductive CreateLinkResp where
  | badRequest (status : Nat) (msg : String)
  | notFound (status : Nat) (msg : String)
  | serverError (status : Nat)
  | ok (link_id tracked_url original_url : String)
deriving Repr, DecidableEq

/-- POST /api/link (create_tracked_link, lines 170-202): 400 when email_id
or url is missing/empty, 404 when the referenced email does not exist,
otherwise insert one Link (id uuid.uuid4().hex[:10]) and return the
tracked redirect URL.  A duplicate link id violates the links PRIMARY
KEY (IntegrityError, an uncaught 500). -/
def createTrackedLink (s : Store) (email_id url label : String) (r now : Nat)
    (hostUrl : String) : Store × CreateLinkResp :=
  if email_id = "" ∨ url = "" then
    (s, CreateLinkResp.badRequest 400 "email_id and url are required")
  else
    let link_id := genLinkId r
    match findEmail s email_id with
    | none => (s, CreateLinkResp.notFound 404 "email not found")
    | some _ =>
        if s.links.any (fun l => l.id == link_id) then
          (s, CreateLinkResp.serverError 500)
        else
          ({ s with
              links := s.links ++
                [{ id := link_id, email_id := email_id, original_url := url,
                   label := label, created_at := now }] },
           CreateLinkResp.ok link_id (rstripSlash hostUrl ++ "/l/" ++ link_id) url)

/-- Descending order on a Nat key: the relation sorting newest first. -/
def descBy (f : α → Nat) (a b : α) : Prop :=
  f b ≤ f a

/-- Ascending order on a Nat key. -/
def ascBy (f : α → Nat) (a b : α) : Prop :=
  f a ≤ f b

instance (f : α → Nat) : DecidableRel (descBy f) :=
  fun a b => Nat.decLe (f b) (f a)

instance (f : α → Nat) : DecidableRel (ascBy f) :=
  fun a b => Nat.decLe (f a) (f b)

instance (f : α → Nat) : IsTotal α (descBy f) :=
  ⟨fun a b => Nat.le_total (f b) (f a)⟩

instance (f : α → Nat) : IsTotal α (ascBy f) :=
  ⟨fun a b => Nat.le_total (f a) (f b)⟩

instance (f : α → Nat) : IsTrans α (descBy f) :=
  ⟨fun _ _ _ h1 h2 => Nat.le_trans h2 h1⟩

instance (f : α → Nat) : IsTrans α (ascBy f) :=
  ⟨fun _ _ _ h1 h2 => Nat.le_trans h1 h2⟩

/-- One row of the GET /api/emails answer. -/
structure EmailEntry where
  id : String
  recipient : String
  subject : String
  created_at : Nat
  open_count : Nat
  last_opened : Option Nat
  click_count : Nat
  last_clicked : Option Nat
deriving Repr, DecidableEq

/-- The aggregate row the list query computes for one email: the two LEFT
JOINs cross-multiply opens and clicks rows of the email, COUNT(DISTINCT
o.id) / COUNT(DISTINCT c.id) count the distinct row ids among them (NULLs
of an empty side contributing nothing), and MAX gives the latest
timestamp, NULL (none) when no row joined. -/
def mkEntry (s : Store) (e : EmailRow) : EmailEntry :=
  { id := e.id, recipient := e.recipient, subject := e.subject,
    created_at := e.created_at,
    open_count := (((s.opens.filter (fun o => o.email_id == e.id)).map OpenRow.id).dedup).length,
    last_opened := ((s.opens.filter (fun o => o.email_id == e.id)).map OpenRow.opened_at).max?,
    click_count := (((s.clicks.filter (fun c => c.email_id == e.id)).map ClickRow.id).dedup).length,
    last_clicked := ((s.clicks.filter (fun c => c.email_id == e.id)).map ClickRow.clicked_at).max? }

/-- GET /api/emails (list_emails, lines 206-232): GROUP BY e.id yields one
group per email row (ids are the primary key), ORDER BY e.created_at
DESC sorts newest-created first. -/
def listEmails (s : Store) : List EmailEntry :=
  List.insertionSort (descBy EmailEntry.created_at) (s.emails.map (mkEntry s))

/-- One row of the clicks part of the detail answer: a click joined with
its link's original_url and label. -/
structure DetailClick where
  id : Nat
  link_id : String
  email_id : String
  clicked_at : Nat
  ip_address : String
  user_agent : String
  original_url : String
  label : String
deriving Repr, DecidableEq

/-- Body of the GET /api/emails/[id] answer. -/
structure Detail where
  opens : List OpenRow
  links : List LinkRow
  clicks : List DetailClick
deriving Repr, DecidableEq

/-- GET /api/emails/[id] (get_email_detail, lines 236-258): the email's
opens newest first, its links in creation order, and its clicks (inner
joined with links on link_id) newest first. -/
def getEmailDetail (s : Store) (email_id : String) : Detail :=
  { opens := List.insertionSort (descBy OpenRow.opened_at)
      (s.opens.filter (fun o => o.email_id == email_id)),
    links := List.insertionSort (ascBy LinkRow.created_at)
      (s.links.filter (fun l => l.email_id == email_id)),
    clicks := List.insertionSort (descBy DetailClick.clicked_at)
      ((s.clicks.filter (fun c => c.email_id == email_id)).flatMap (fun c =>
        (s.links.filter (fun l => l.id == c.link_id)).map (fun l =>
          { id := c.id, link_id := c.link_id, email_id := c.email_id,
            clicked_at := c.clicked_at, ip_address := c.ip_address,
            user_agent := c.user_agent, original_url := l.original_url,
            label := l.label }))) }

/-- Response of DELETE /api/emails/[id]. -/
structure DeleteResp where
  success : Bool
deriving Repr, DecidableEq

/-- DELETE /api/emails/[id] (delete_email, lines 262-271): delete the
clicks, opens and links rows carrying this email_id, then the email row
itself, and report success unconditionally. -/
def deleteEmail (s : Store) (email_id : String) : Store × DeleteResp :=
  ({ s with
      clicks := s.clicks.filter (fun c => !(c.email_id == email_id)),
      opens := s.opens.filter (fun o => !(o.email_id == email_id)),
      links := s.links.filter (fun l => !(l.email_id == email_id)),
      emails := s.emails.filter (fun e => !(e.id == email_id)) },
   { success := true })

/-- Number of opens rows carrying the given email id. -/
def openCount (s : Store) (email_id : String) : Nat :=
  (s.opens.filter (fun o => o.email_id == email_id)).length

/-- Number of clicks rows carrying the given email id. -/
def clickCount (s : Store) (email_id : String) : Nat :=
  (s.clicks.filter (fun c => c.email_id == email_id)).length

/-- Store states reachable by any sequence of the server's write
operations starting from a freshly initialised database.  The read
operations (list, detail, dashboard) do not change the store. -/
inductive Reachable : Store → Prop where
  | empty : Reachable initStore
  | stepOpen (s : Store) (email_id ip ua : String) (now : Nat) :
      Reachable s → Reachable (trackOpen s email_id ip ua now).1
  | stepClick (s : Store) (link_id ip ua : String) (now : Nat) :
      Reachable s → Reachable (trackClick s link_id ip ua now).1
  | stepCreateEmail (s : Store) (recipient subject : String) (r now : Nat) (hostUrl : String) :
      Reachable s → Reachable (createTrackedEmail s recipient subject r now hostUrl).1
  | stepCreateLink (s : Store) (email_id url label : String) (r now : Nat) (hostUrl : String) :
      Reachable s → Reachable (createTrackedLink s email_id url label r now hostUrl).1
  | stepDelete (s : Store) (email_id : String) :
      Reachable s → Reachable (deleteEmail s email_id).1

/-- Primary-key well-formedness the sqlite schema enforces: the id columns
of emails, opens and clicks hold no duplicates. -/
def WfIds (s : Store) : Prop :=
  (s.emails.map EmailRow.id).Nodup ∧ (s.opens.map OpenRow.id).Nodup ∧
    (s.clicks.map ClickRow.id).Nodup

instance (s : Store) : Decidable (WfIds s) := by
  unfold WfIds; infer_instance

/-- Sample email row used by concrete witnesses. -/
def sEmail1 : EmailRow :=
  { id := "e1", recipient := "a@x.com", subject := "Hi", created_at := 3 }

/-- Sample link row used by concrete witnesses. -/
def sLink1 : LinkRow :=
  { id := "l1", email_id := "e1", original_url := "https://x.com", label := "pdf", created_at := 4 }

/-- Sample store used by concrete witnesses: one email owning one link. -/
def sStore1 : Store :=
  { emails := [sEmail1], opens := [], links := [sLink1], clicks := [],
    nextOpenId := 1, nextClickId := 1 }

/-- C2: for an email id present in the store, the pixel endpoint appends
exactly one Open row for that email with method "pixel" (raising the
email's open count by exactly 1) and responds with the fixed 1x1
transparent GIF payload under the anti-caching headers no-store,
max-age=0, Pragma: no-cache, Expires: 0. -/
theorem trackOpen_found (s : Store) (email_id ip ua : String) (now : Nat) (e : EmailRow)
    (h : findEmail s email_id = some e) :
    trackOpen s email_id ip ua now =
      ({ s with
          opens := s.opens ++
            [{ id := s.nextOpenId, email_id := email_id, opened_at := now,
               ip_address := ip, user_agent := ua, method := "pixel" }],
          nextOpenId := s.nextOpenId + 1 },
       pixelResponse) ∧
    openCount (trackOpen s email_id ip ua now).1 email_id = openCount s email_id + 1 ∧
    pixelResponse.body = PIXEL ∧ pixelResponse.headers = noCacheHeaders := by
  refine ⟨by simp [trackOpen, h], ?_, rfl, rfl⟩
  simp [trackOpen, h, openCount, List.filter_append]

/-- C2 witness: concrete pixel hit on the sample store. -/
theorem trackOpen_found_witness :
    openCount (trackOpen sStore1 "e1" "9.9.9.9" "UA" 7).1 "e1" = openCount sStore1 "e1" + 1 :=
  (trackOpen_found sStore1 "e1" "9.9.9.9" "UA" 7 sEmail1 (by decide)).2.1

/-- C5: for an email id absent from the store, the pixel endpoint leaves
the store completely unchanged and still responds with the same fixed
image payload and anti-caching headers. -/
theorem trackOpen_missing (s : Store) (email_id ip ua : String) (now : Nat)
    (h : findEmail s email_id = none) :
    trackOpen s email_id ip ua now = (s, pixelResponse) ∧
    pixelResponse.body = PIXEL ∧ pixelResponse.headers = noCacheHeaders := by
  refine ⟨by simp [trackOpen, h], rfl, rfl⟩

/-- C5 witness: concrete pixel hit for an unknown id on the sample store. -/
theorem trackOpen_missing_witness :
    trackOpen sStore1 "nope" "9.9.9.9" "UA" 7 = (sStore1, pixelResponse) ∧
    pixelResponse.body = PIXEL ∧ pixelResponse.headers = noCacheHeaders :=
  trackOpen_missing sStore1 "nope" "9.9.9.9" "UA" 7 (by decide)

/-- C6: for a link id absent from the store, the link endpoint answers 404,
issues no redirect, and performs no writes at all. -/
theorem trackClick_missing (s : Store) (link_id ip ua : String) (now : Nat)
    (h : findLink s link_id = none) :
    trackClick s link_id ip ua now = (s, ClickResp.err 404) := by
  simp [trackClick, h]

/-- C6 witness: concrete click on an unknown link id in the sample store. -/
theorem trackClick_missing_witness :
    trackClick sStore1 "nope" "9.9.9.9" "UA" 7 = (sStore1, ClickResp.err 404) :=
  trackClick_missing sStore1 "nope" "9.9.9.9" "UA" 7 (by decide)

/-- C1: for a link id present in the store, the link endpoint appends
exactly one Click row for that link and exactly one Open row with method
"link" for the link's owning email (each raising the owning email's
click count resp. open count by exactly 1) and redirects to the link's
original_url. -/
theorem trackClick_found (s : Store) (link_id ip ua : String) (now : Nat) (link : LinkRow)
    (h : findLink s link_id = some link) :
    trackClick s link_id ip ua now =
      ({ s with
          clicks := s.clicks ++
            [{ id := s.nextClickId, link_id := link_id, email_id := link.email_id,
               clicked_at := now, ip_address := ip, user_agent := ua }],
          opens := s.opens ++
            [{ id := s.nextOpenId, email_id := link.email_id, opened_at := now,
               ip_address := ip, user_agent := ua, method := "link" }],
          nextClickId := s.nextClickId + 1,
          nextOpenId := s.nextOpenId + 1 },
       ClickResp.redirect 302 link.original_url) ∧
    openCount (trackClick s link_id ip ua now).1 link.email_id =
      openCount s link.email_id + 1 ∧
    clickCount (trackClick s link_id ip ua now).1 link.email_id =
      clickCount s link.email_id + 1 := by
  refine ⟨by simp [trackClick, h], ?_, ?_⟩
  · simp [trackClick, h, openCount, List.filter_append]
  · simp [trackClick, h, clickCount, List.filter_append]

/-- C1 witness: concrete click on the sample store's link. -/
theorem trackClick_found_witness :
    openCount (trackClick sStore1 "l1" "9.9.9.9" "UA" 7).1 "e1" =
      openCount sStore1 "e1" + 1 ∧
    clickCount (trackClick sStore1 "l1" "9.9.9.9" "UA" 7).1 "e1" =
      clickCount sStore1 "e1" + 1 :=
  ⟨(trackClick_found sStore1 "l1" "9.9.9.9" "UA" 7 sLink1 (by decide)).2.1,
   (trackClick_found sStore1 "l1" "9.9.9.9" "UA" 7 sLink1 (by decide)).2.2⟩

/-- A list whose p-filter is empty is untouched by filtering on not-p. -/
theorem filter_not_of_filter_eq_nil {p : α → Bool} {l : List α}
    (h : l.filter p = []) : l.filter (fun a => !(p a)) = l := by
  apply List.filter_eq_self.mpr
  intro a ha
  have := List.filter_eq_nil_iff.mp h a ha
  simp [this]

/-- C4: deleting an email id removes the Email row and every Link, Open and
Click row referencing that email, answers success, afterwards the detail
operation on that id yields empty opens, links and clicks, and on an id
with no trace in the store the deletion is a silent no-op that still
reports success. -/
theorem deleteEmail_spec (s : Store) (email_id : String) :
    (deleteEmail s email_id).2 = { success := true } ∧
    (getEmailDetail (deleteEmail s email_id).1 email_id).opens = [] ∧
    (getEmailDetail (deleteEmail s email_id).1 email_id).links = [] ∧
    (getEmailDetail (deleteEmail s email_id).1 email_id).clicks = [] ∧
    (∀ e ∈ (deleteEmail s email_id).1.emails, e.id ≠ email_id) ∧
    (∀ l ∈ (deleteEmail s email_id).1.links, l.email_id ≠ email_id) ∧
    (∀ o ∈ (deleteEmail s email_id).1.opens, o.email_id ≠ email_id) ∧
    (∀ c ∈ (deleteEmail s email_id).1.clicks, c.email_id ≠ email_id) ∧
    (s.emails.filter (fun e => e.id == email_id) = [] ∧
      s.opens.filter (fun o => o.email_id == email_id) = [] ∧
      s.links.filter (fun l => l.email_id == email_id) = [] ∧
      s.clicks.filter (fun c => c.email_id == email_id) = [] →
      (deleteEmail s email_id).1 = s) := by
  refine ⟨rfl, ?_, ?_, ?_, ?_, ?_, ?_, ?_, ?_⟩
  · simp [getEmailDetail, deleteEmail, List.filter_filter]
  · simp [getEmailDetail, deleteEmail, List.filter_filter]
  · simp [getEmailDetail, deleteEmail, List.filter_filter]
  · intro e he
    have := (List.mem_filter.mp he).2
    simpa using this
  · intro l hl
    have := (List.mem_filter.mp hl).2
    simpa using this
  · intro o ho
    have := (List.mem_filter.mp ho).2
    simpa using this
  · intro c hc
    have := (List.mem_filter.mp hc).2
    simpa using this
  · rintro ⟨h1, h2, h3, h4⟩
    simp [deleteEmail, filter_not_of_filter_eq_nil h1, filter_not_of_filter_eq_nil h2,
      filter_not_of_filter_eq_nil h3, filter_not_of_filter_eq_nil h4]

/-- C4 witness: concrete deletion of an absent id is a success no-op. -/
theorem deleteEmail_spec_witness :
    (deleteEmail sStore1 "nope").2 = { success := true } ∧
    (deleteEmail sStore1 "nope").1 = sStore1 :=
  ⟨(deleteEmail_spec sStore1 "nope").1,
   (deleteEmail_spec sStore1 "nope").2.2.2.2.2.2.2.2 (by decide)⟩

/-- Freshness of a candidate id turns the duplicate-key check off. -/
theorem any_beq_eq_false_of_not_mem_map {l : List α} {f : α → String} {x : String}
    (h : x ∉ l.map f) : l.any (fun a => f a == x) = false := by
  rw [Bool.eq_false_iff]
  intro hany
  obtain ⟨a, ha, hbeq⟩ := List.any_eq_true.mp hany
  exact h (List.mem_map.mpr ⟨a, ha, eq_of_beq hbeq⟩)

/-- C8: the create-email operation rejects a missing/empty recipient or
subject with a 400 validation error persisting nothing; with both fields
non-empty (and the generated id fresh, as the generator contract
supplies) it persists exactly one Email row and returns the generated
id, the fully-qualified pixel URL base/p/id.gif, and an HTML img tag
referencing that URL. -/
theorem createTrackedEmail_spec (s : Store) (recipient subject : String) (r now : Nat)
    (hostUrl : String) :
    (recipient = "" ∨ subject = "" →
      createTrackedEmail s recipient subject r now hostUrl =
        (s, CreateEmailResp.badRequest 400 "recipient and subject are required")) ∧
    (¬(recipient = "" ∨ subject = "") → genEmailId r ∉ s.emails.map EmailRow.id →
      createTrackedEmail s recipient subject r now hostUrl =
        ({ s with
            emails := s.emails ++
              [{ id := genEmailId r, recipient := recipient, subject := subject,
                 created_at := now }] },
         CreateEmailResp.ok (genEmailId r)
           (rstripSlash hostUrl ++ "/p/" ++ genEmailId r ++ ".gif")
           ("<img src=\"" ++ (rstripSlash hostUrl ++ "/p/" ++ genEmailId r ++ ".gif") ++
             "\" width=\"1\" height=\"1\" style=\"display:none\" alt=\"\" />"))) := by
  constructor
  · intro h
    simp [createTrackedEmail, h]
  · intro hvalid hfresh
    simp [createTrackedEmail, hvalid, any_beq_eq_false_of_not_mem_map hfresh]

/-- C8 witness: concrete registration on the empty store. -/
theorem createTrackedEmail_spec_witness :
    createTrackedEmail initStore "a@x.com" "Hi" 0 1 "http://t.local/" =
      ({ initStore with
          emails := [{ id := "000000000000", recipient := "a@x.com", subject := "Hi",
                       created_at := 1 }] },
       CreateEmailResp.ok "000000000000" "http://t.local/p/000000000000.gif"
         ("<img src=\"http://t.local/p/000000000000.gif\" width=\"1\" height=\"1\"" ++
           " style=\"display:none\" alt=\"\" />")) :=
  (createTrackedEmail_spec initStore "a@x.com" "Hi" 0 1 "http://t.local/").2
    (by decide) (by decide)

/-- C7: the create-link operation rejects a missing/empty email_id or url
with a 400 validation error persisting nothing; with both present but
the email id unknown it answers 404 creating no Link row; otherwise
(with the generated id fresh, as the generator contract supplies) it
persists exactly one Link row with the given email_id, url and label and
returns the tracked redirect URL base/l/id alongside the original URL. -/
theorem createTrackedLink_spec (s : Store) (email_id url label : String) (r now : Nat)
    (hostUrl : String) :
    (email_id = "" ∨ url = "" →
      createTrackedLink s email_id url label r now hostUrl =
        (s, CreateLinkResp.badRequest 400 "email_id and url are required")) ∧
    (¬(email_id = "" ∨ url = "") → findEmail s email_id = none →
      createTrackedLink s email_id url label r now hostUrl =
        (s, CreateLinkResp.notFound 404 "email not found")) ∧
    (∀ e : EmailRow, ¬(email_id = "" ∨ url = "") → findEmail s email_id = some e →
      genLinkId r ∉ s.links.map LinkRow.id →
      createTrackedLink s email_id url label r now hostUrl =
        ({ s with
            links := s.links ++
              [{ id := genLinkId r, email_id := email_id, original_url := url,
                 label := label, created_at := now }] },
         CreateLinkResp.ok (genLinkId r) (rstripSlash hostUrl ++ "/l/" ++ genLinkId r)
           url)) := by
  refine ⟨?_, ?_, ?_⟩
  · intro h
    simp [createTrackedLink, h]
  · intro hvalid hmiss
    simp [createTrackedLink, hvalid, hmiss]
  · intro e hvalid hfound hfresh
    simp [createTrackedLink, hvalid, hfound, any_beq_eq_false_of_not_mem_map hfresh]

/-- C7 witness: concrete link registration against the sample store. -/
theorem createTrackedLink_spec_witness :
    createTrackedLink sStore1 "e1" "https://y.com" "L2" 0 9 "http://t.local/" =
      ({ sStore1 with
          links := sStore1.links ++
            [{ id := "0000000000", email_id := "e1", original_url := "https://y.com",
               label := "L2", created_at := 9 }] },
       CreateLinkResp.ok "0000000000" "http://t.local/l/0000000000" "https://y.com") :=
  (createTrackedLink_spec sStore1 "e1" "https://y.com" "L2" 0 9 "http://t.local/").2.2
    sEmail1 (by decide) (by decide) (by decide)

/-- Sample store with two emails, two opens and one click, used by
concrete witnesses of the aggregate queries. -/
def sStore2 : Store :=
  { emails := [sEmail1, { id := "e2", recipient := "b@y.com", subject := "Yo", created_at := 5 }],
    opens := [{ id := 1, email_id := "e1", opened_at := 6, ip_address := "ip",
                user_agent := "ua", method := "pixel" },
              { id := 2, email_id := "e1", opened_at := 7, ip_address := "ip",
                user_agent := "ua", method := "link" }],
    links := [sLink1],
    clicks := [{ id := 1, link_id := "l1", email_id := "e1", clicked_at := 7,
                 ip_address := "ip", user_agent := "ua" }],
    nextOpenId := 3, nextClickId := 2 }

/-- C3: on a store whose id columns satisfy the schema's primary-key
constraints, the list operation yields exactly one entry per Email row,
sorted newest-created first, and each entry's open_count / click_count
is the exact number of Open / Click rows carrying that email id (rows
counted individually); an email without events therefore shows 0 and 0. -/
theorem listEmails_spec (s : Store) (h : WfIds s) :
    (listEmails s).Perm (s.emails.map (mkEntry s)) ∧
    List.Sorted (descBy EmailEntry.created_at) (listEmails s) ∧
    ∀ en ∈ listEmails s,
      en.open_count = (s.opens.filter (fun o => o.email_id == en.id)).length ∧
      en.click_count = (s.clicks.filter (fun c => c.email_id == en.id)).length := by
  obtain ⟨-, hop, hcl⟩ := h
  refine ⟨List.perm_insertionSort _ _, List.sorted_insertionSort _ _, ?_⟩
  intro en hen
  have hen2 : en ∈ s.emails.map (mkEntry s) := (List.perm_insertionSort _ _).subset hen
  obtain ⟨e, he, rfl⟩ := List.mem_map.mp hen2
  constructor
  · have hnd : ((s.opens.filter (fun o => o.email_id == e.id)).map OpenRow.id).Nodup :=
      hop.sublist (List.Sublist.map _ (List.filter_sublist _))
    show (((s.opens.filter (fun o => o.email_id == e.id)).map OpenRow.id).dedup).length = _
    rw [List.dedup_eq_self.mpr hnd, List.length_map]
    rfl
  · have hnd : ((s.clicks.filter (fun c => c.email_id == e.id)).map ClickRow.id).Nodup :=
      hcl.sublist (List.Sublist.map _ (List.filter_sublist _))
    show (((s.clicks.filter (fun c => c.email_id == e.id)).map ClickRow.id).dedup).length = _
    rw [List.dedup_eq_self.mpr hnd, List.length_map]
    rfl

/-- C3 witness: concrete aggregated listing on the sample store. -/
theorem listEmails_spec_witness :
    (listEmails sStore2).Perm (sStore2.emails.map (mkEntry sStore2)) ∧
    List.Sorted (descBy EmailEntry.created_at) (listEmails sStore2) :=
  ⟨(listEmails_spec sStore2 (by decide)).1, (listEmails_spec sStore2 (by decide)).2.1⟩

/-- A character is a lowercase hexadecimal digit. -/
def isHexChar (c : Char) : Bool :=
  c.isDigit || ('a' ≤ c && c ≤ 'f')

/-- The fixed-width little-endian hex rendering has exactly k digits. -/
theorem hexDigitsRev_length (k : Nat) : ∀ n, (hexDigitsRev k n).length = k := by
  induction k with
  | zero => intro n; rfl
  | succ k ih => intro n; simp [hexDigitsRev, ih]

/-- The digit of a value below 16 is a lowercase hex character. -/
theorem hexDigit_isHexChar (m : Nat) (h : m < 16) : isHexChar (hexDigit m) = true := by
  interval_cases m <;> decide

/-- Every character of the fixed-width hex rendering is a hex digit. -/
theorem hexDigitsRev_isHexChar (k : Nat) :
    ∀ n, ∀ c ∈ hexDigitsRev k n, isHexChar c = true := by
  induction k with
  | zero => intro n c hc; simp [hexDigitsRev] at hc
  | succ k ih =>
      intro n c hc
      rw [hexDigitsRev] at hc
      rcases List.mem_cons.mp hc with h | h
      · rw [h]
        exact hexDigit_isHexChar _ (Nat.mod_lt _ (by decide))
      · exact ih _ c h

/-- C9 counterexample: the generator never consults the store, so for a
store already holding the candidate string as a primary key the
generated email id (and likewise the link id) is already present. -/
theorem genId_fresh_cex :
    ¬ (∀ (s : Store) (r : Nat),
        genEmailId r ∉ s.emails.map EmailRow.id ∧
        genLinkId r ∉ s.links.map LinkRow.id) := by
  intro h
  exact (h { emails := [{ id := "000000000000", recipient := "a@x.com", subject := "Hi",
                          created_at := 0 }],
             opens := [], links := [], clicks := [], nextOpenId := 1, nextClickId := 1 }
           0).1 (by decide)

/-- C9 amended: every generated Email id is exactly 12 lowercase hex
characters and every generated Link id exactly 10; freshness against the
table is not checked by the generator (a collision is only caught by the
primary-key constraint at insertion). -/
theorem genId_shape (r : Nat) :
    (genEmailId r).length = 12 ∧ (∀ c ∈ (genEmailId r).data, isHexChar c = true) ∧
    (genLinkId r).length = 10 ∧ (∀ c ∈ (genLinkId r).data, isHexChar c = true) := by
  refine ⟨?_, ?_, ?_, ?_⟩
  · show ((uuidHexChars r).take 12).length = 12
    simp [uuidHexChars, List.length_take, hexDigitsRev_length]
  · intro c hc
    have hc2 : c ∈ uuidHexChars r := List.mem_of_mem_take hc
    exact hexDigitsRev_isHexChar 32 r c (List.mem_reverse.mp hc2)
  · show ((uuidHexChars r).take 10).length = 10
    simp [uuidHexChars, List.length_take, hexDigitsRev_length]
  · intro c hc
    have hc2 : c ∈ uuidHexChars r := List.mem_of_mem_take hc
    exact hexDigitsRev_isHexChar 32 r c (List.mem_reverse.mp hc2)

/-- A successful link lookup returns a member of the links table whose id
is the queried one. -/
theorem findLink_some {s : Store} {lid : String} {l : LinkRow}
    (h : findLink s lid = some l) : l ∈ s.links ∧ l.id = lid := by
  unfold findLink at h
  have h2 := List.find?_some h
  simp only [beq_iff_eq] at h2
  exact ⟨List.mem_of_find?_eq_some h, h2⟩

/-- A candidate key the duplicate-key check did not find is absent. -/
theorem not_mem_map_of_any_beq_false {l : List α} {f : α → String} {x : String}
    (h : ¬ l.any (fun a => f a == x) = true) : x ∉ l.map f := by
  intro hx
  obtain ⟨a, ha, hfa⟩ := List.mem_map.mp hx
  exact h (List.any_eq_true.mpr ⟨a, ha, by simp [hfa]⟩)

/-- Click-attribution invariant: link ids are pairwise distinct (their
primary key) and every click's link exists and carries the same owning
email id as the click. -/
def ClickInv (s : Store) : Prop :=
  (s.links.map LinkRow.id).Nodup ∧
    ∀ c ∈ s.clicks, ∃ l, l ∈ s.links ∧ l.id = c.link_id ∧ l.email_id = c.email_id

/-- Stores with equal links and clicks tables share the invariant. -/
theorem clickInv_of_eq {s t : Store} (h : ClickInv s) (hl : t.links = s.links)
    (hc : t.clicks = s.clicks) : ClickInv t := by
  unfold ClickInv at h ⊢
  rw [hl, hc]
  exact h

/-- The pixel handler touches neither links nor clicks. -/
theorem clickInv_trackOpen (s : Store) (email_id ip ua : String) (now : Nat)
    (h : ClickInv s) : ClickInv (trackOpen s email_id ip ua now).1 := by
  cases hf : findEmail s email_id
  · simp only [trackOpen, hf]
    exact clickInv_of_eq h rfl rfl
  · simp only [trackOpen, hf]
    exact clickInv_of_eq h rfl rfl

/-- The click handler only appends a click copied from an existing link. -/
theorem clickInv_trackClick (s : Store) (link_id ip ua : String) (now : Nat)
    (h : ClickInv s) : ClickInv (trackClick s link_id ip ua now).1 := by
  cases hf : findLink s link_id with
  | none =>
      simp only [trackClick, hf]
      exact clickInv_of_eq h rfl rfl
  | some link =>
      obtain ⟨hmem, hid⟩ := findLink_some hf
      simp only [trackClick, hf]
      refine ⟨h.1, ?_⟩
      intro c hc
      rcases List.mem_append.mp hc with hold | hnew
      · exact h.2 c hold
      · rw [List.mem_singleton.mp hnew]
        exact ⟨link, hmem, hid, rfl⟩

/-- The email-registration handler touches neither links nor clicks. -/
theorem clickInv_createEmail (s : Store) (recipient subject : String) (r now : Nat)
    (hostUrl : String) (h : ClickInv s) :
    ClickInv (createTrackedEmail s recipient subject r now hostUrl).1 := by
  by_cases hv : recipient = "" ∨ subject = ""
  · simp only [createTrackedEmail, if_pos hv]
    exact clickInv_of_eq h rfl rfl
  · by_cases hd : s.emails.any (fun e => e.id == genEmailId r) = true
    · simp [createTrackedEmail, hv, hd]
      exact clickInv_of_eq h rfl rfl
    · simp [createTrackedEmail, hv, hd]
      exact clickInv_of_eq h rfl rfl

/-- The link-registration handler appends at most one link with a key the
duplicate check certified fresh, and no click. -/
theorem clickInv_createLink (s : Store) (email_id url label : String) (r now : Nat)
    (hostUrl : String) (h : ClickInv s) :
    ClickInv (createTrackedLink s email_id url label r now hostUrl).1 := by
  by_cases hv : email_id = "" ∨ url = ""
  · simp only [createTrackedLink, if_pos hv]
    exact clickInv_of_eq h rfl rfl
  · cases hf : findEmail s email_id with
    | none =>
        simp [createTrackedLink, hv, hf]
        exact clickInv_of_eq h rfl rfl
    | some e =>
        by_cases hd : s.links.any (fun l => l.id == genLinkId r) = true
        · simp [createTrackedLink, hv, hf, hd]
          exact clickInv_of_eq h rfl rfl
        · simp [createTrackedLink, hv, hf, hd]
          constructor
          · rw [List.map_append, List.nodup_append]
            refine ⟨h.1, List.nodup_singleton _, ?_⟩
            intro x hx hx2
            rw [List.mem_singleton.mp hx2] at hx
            exact not_mem_map_of_any_beq_false hd hx
          · intro c hc
            obtain ⟨l, hl, hlid, hlem⟩ := h.2 c hc
            exact ⟨l, List.mem_append_left _ hl, hlid, hlem⟩

/-- Deletion filters both tables consistently: a surviving click's link
carries the same email id, hence also survives. -/
theorem clickInv_delete (s : Store) (email_id : String) (h : ClickInv s) :
    ClickInv (deleteEmail s email_id).1 := by
  obtain ⟨hnd, hex⟩ := h
  constructor
  · exact hnd.sublist (List.Sublist.map _ (List.filter_sublist _))
  · intro c hc
    have hc2 := List.mem_filter.mp hc
    obtain ⟨l, hl, hlid, hlem⟩ := hex c hc2.1
    have hne : c.email_id ≠ email_id := by simpa using hc2.2
    refine ⟨l, List.mem_filter.mpr ⟨hl, ?_⟩, hlid, hlem⟩
    simp [hlem, hne]

/-- Every reachable store satisfies the click-attribution invariant. -/
theorem reachable_clickInv {s : Store} (h : Reachable s) : ClickInv s := by
  induction h with
  | empty => exact ⟨List.nodup_nil, by intro c hc; simp [initStore] at hc⟩
  | stepOpen s email_id ip ua now hr ih => exact clickInv_trackOpen s email_id ip ua now ih
  | stepClick s link_id ip ua now hr ih => exact clickInv_trackClick s link_id ip ua now ih
  | stepCreateEmail s recipient subject r now hostUrl hr ih =>
      exact clickInv_createEmail s recipient subject r now hostUrl ih
  | stepCreateLink s email_id url label r now hostUrl hr ih =>
      exact clickInv_createLink s email_id url label r now hostUrl ih
  | stepDelete s email_id hr ih => exact clickInv_delete s email_id ih

/-- C10: in every store reachable from the empty store by the program's
operations, every Click row's email_id equals the email_id of the Link
row its link_id references, so a click is never attributed to a
different email than its link. -/
theorem click_email_matches_link (s : Store) (h : Reachable s) :
    ∀ c ∈ s.clicks, ∀ l ∈ s.links, c.link_id = l.id → c.email_id = l.email_id := by
  obtain ⟨hnd, hex⟩ := reachable_clickInv h
  intro c hc l hl hid
  obtain ⟨l0, hl0, hl0id, hl0em⟩ := hex c hc
  have heq : l = l0 := List.inj_on_of_nodup_map hnd hl hl0 (hl0id.trans hid).symm
  rw [heq, hl0em]

/-- Reachable store after registering one email. -/
def sStoreA : Store :=
  (createTrackedEmail initStore "a@x.com" "Hi" 0 1 "http://t.local/").1

/-- Reachable store after also registering one link. -/
def sStoreB : Store :=
  (createTrackedLink sStoreA "000000000000" "https://x.com" "pdf" 0 2 "http://t.local/").1

/-- Reachable store after also recording one click on that link. -/
def sStoreC : Store :=
  (trackClick sStoreB "0000000000" "1.2.3.4" "UA" 3).1

/-- C10 witness: the concrete click recorded on the reachable store sStoreC
carries its link's owning email id. -/
theorem click_email_matches_link_witness :
    ({ id := 1, link_id := "0000000000", email_id := "000000000000", clicked_at := 3,
       ip_address := "1.2.3.4", user_agent := "UA" } : ClickRow).email_id =
      ({ id := "0000000000", email_id := "000000000000", original_url := "https://x.com",
         label := "pdf", created_at := 2 } : LinkRow).email_id :=
  click_email_matches_link sStoreC
    (Reachable.stepClick sStoreB "0000000000" "1.2.3.4" "UA" 3
      (Reachable.stepCreateLink sStoreA "000000000000" "https://x.com" "pdf" 0 2
        "http://t.local/"
        (Reachable.stepCreateEmail initStore "a@x.com" "Hi" 0 1 "http://t.local/"
          Reachable.empty)))
    { id := 1, link_id := "0000000000", email_id := "000000000000", clicked_at := 3,
      ip_address := "1.2.3.4", user_agent := "UA" } (by decide)
    { id := "0000000000", email_id := "000000000000", original_url := "https://x.com",
      label := "pdf", created_at := 2 } (by decide) rfl
